import Mathlib

/-!
Verification of the captionbot Go client (src/captionbot.go) against its
natural-language specification.

The embedding models each exported operation of the package as a pure Lean
function.  Outcomes of external calls (HTTP transport, the standard-library
JSON encoder/decoder, file system access) are supplied through explicit
environment records, one field per fallible call site in the source, so the
control flow, error propagation and state mutation of the Go code are
reproduced exactly.  A Go runtime panic (index out of range, slice bounds out
of range) is made explicit as the `GoOutcome.panicked` constructor.  Network
requests actually issued are recorded in an event trace.
-/

namespace Captionbot

/-- Session state, from `CaptionBotClientState` (captionbot.go lines 44-47):
`waterMark` and `conversationId`, both starting empty. -/
structure CaptionBotClientState where
waterMark : String
conversationId : String
deriving DecidableEq, Repr

/-- Request payload, from `CaptionBotRequest` (lines 24-28). -/
structure CaptionBotRequest where
conversationId : String
userMessage : String
waterMark : String
deriving DecidableEq, Repr

/-- Response payload, from `CaptionBotResponse` (lines 31-37). -/
structure CaptionBotResponse where
conversationId : String
userMessage : String
waterMark : String
status : String
botMessages : List String
deriving DecidableEq, Repr

/-- The error values the library can return.  Each constructor corresponds to
an error the Go code actually produces: transport errors from `net/http`,
the `fmt.Errorf` at line 88 (non-2XX status on task submission), the
`fmt.Errorf` at line 150 (missing initialization), encode/decode errors from
`encoding/json`, and file/IO errors in `UploadCaption`.  The code constructs
no "malformed response" error of any kind. -/
inductive GoError where
| transport (msg : String)
| taskSubmission
| notInitialized
| encodeErr (msg : String)
| decodeErr (msg : String)
| ioErr (msg : String)
deriving DecidableEq, Repr

/-- Outcome of a call: a normal return value, a returned error value, or a
Go runtime panic (which in Go unwinds the stack and, unrecovered, terminates
the process). -/
inductive GoOutcome (α : Type) where
| ok (a : α)
| err (e : GoError)
| panicked
deriving DecidableEq, Repr

/-- Network requests the client can issue, recorded in the order they are
sent.  `postMessage`/`getMessage` carry the `userMessage` (image URL) they
transmit. -/
inductive NetEvent where
| getInit
| postMessage (userMessage : String)
| getMessage (userMessage : String)
| postUpload
deriving DecidableEq, Repr

/-- `strings.Trim(s, "\"")`: remove all leading and all trailing double-quote
characters (captionbot.go line 139). -/
def goTrimQuotes (s : String) : String :=
(((s.data.dropWhile (fun c => c = '"')).reverse.dropWhile (fun c => c = '"')).reverse).asString

/-- `strings.Replace(s, "\\\"", "\"", -1)`: replace every (leftmost,
non-overlapping) backslash-quote pair by a double-quote (line 112). -/
def replaceEscQuoteL : List Char → List Char
| '\\' :: '"' :: rest => '"' :: replaceEscQuoteL rest
| c :: rest => c :: replaceEscQuoteL rest
| [] => []

/-- String wrapper for `replaceEscQuoteL`. -/
def goReplaceEscQuote (s : String) : String :=
(replaceEscQuoteL s.data).asString

/-- `SanitizeCaptionByteArray` (lines 107-115): `data[1 : len(data)-1]`
followed by the backslash-quote replacement.  In Go the slice expression
panics (slice bounds out of range) whenever `len(data) < 2`: for length 0 the
upper bound is -1, for length 1 the lower bound 1 exceeds the upper bound 0.
The guard below makes that implicit partiality explicit. -/
def SanitizeCaptionByteArray (data : String) : GoOutcome String :=
if data.length < 2 then GoOutcome.panicked
else GoOutcome.ok (goReplaceEscQuote ((data.data.drop 1).dropLast).asString)

/-- Outcome of `http.DefaultClient.Do` in `CreateCaptionTask` (line 81):
either a transport error message or an HTTP status code.  (`http.NewRequest`
at line 76 cannot fail for this fixed method and URL; its error path is folded
into the transport error.) -/
abbrev PostDoOutcome := Except String Nat

/-- `CreateCaptionTask` (lines 74-92): POST the encoded request; fail on a
transport error, or with the line-88 error when the status is outside
200-299.  The response body is ignored. -/
def CreateCaptionTask (_data : String) (postDo : PostDoOutcome) : Except GoError Unit :=
match postDo with
| Except.error msg => Except.error (GoError.transport msg)
| Except.ok status =>
  if status < 200 ∨ status > 299 then Except.error GoError.taskSubmission
  else Except.ok ()

/-- Environment for one `URLCaption` call: outcomes of the external calls it
makes, one field per call site.
* `jsonEncode` : `json.NewEncoder(&data).Encode(requestData)` (line 162) —
  error message or encoded body;
* `postDo` : transport/status outcome of the POST inside
  `CreateCaptionTask` (line 81);
* `httpGet` : `http.Get` of the follow-up query (line 181) — transport error
  or raw response body;
* `decodeOuter` : `json.NewDecoder(resp.Body).Decode(&response)` (line 189)
  — decode the body as a JSON string;
* `decodeInner` : `json.Unmarshal([]byte(response), &captionJSON)`
  (line 195) — decode the inner JSON object. -/
structure UrlCaptionEnv where
jsonEncode : CaptionBotRequest → Except String String
postDo : PostDoOutcome
httpGet : Except String String
decodeOuter : String → Except String String
decodeInner : String → Except String CaptionBotResponse

/-- `URLCaption` (lines 146-208), step for step:
empty-token check (149), request encoding (155-164), `CreateCaptionTask`
(172), follow-up GET (181), outer string decode (189), inner object decode
(195), waterMark update (202), and finally `BotMessages[1]` (205) — an
unchecked index that panics when `botMessages` has fewer than two entries,
after the waterMark has already been overwritten.
Returns (outcome, state after the call, network events issued). -/
def URLCaption (cb : CaptionBotClientState) (env : UrlCaptionEnv) (url : String) :
    GoOutcome String × CaptionBotClientState × List NetEvent :=
if cb.conversationId = "" then
  (GoOutcome.err GoError.notInitialized, cb, [])
else
  match env.jsonEncode ⟨cb.conversationId, url, cb.waterMark⟩ with
  | Except.error msg => (GoOutcome.err (GoError.encodeErr msg), cb, [])
  | Except.ok data =>
    match CreateCaptionTask data env.postDo with
    | Except.error e => (GoOutcome.err e, cb, [NetEvent.postMessage url])
    | Except.ok _ =>
      match env.httpGet with
      | Except.error msg =>
        (GoOutcome.err (GoError.transport msg), cb,
          [NetEvent.postMessage url, NetEvent.getMessage url])
      | Except.ok body =>
        match env.decodeOuter body with
        | Except.error msg =>
          (GoOutcome.err (GoError.decodeErr msg), cb,
            [NetEvent.postMessage url, NetEvent.getMessage url])
        | Except.ok response =>
          match env.decodeInner response with
          | Except.error msg =>
            (GoOutcome.err (GoError.decodeErr msg), cb,
              [NetEvent.postMessage url, NetEvent.getMessage url])
          | Except.ok captionJSON =>
            let cb' := { cb with waterMark := captionJSON.waterMark }
            match captionJSON.botMessages with
            | _ :: caption :: _ =>
              (GoOutcome.ok caption, cb',
                [NetEvent.postMessage url, NetEvent.getMessage url])
            | _ =>
              (GoOutcome.panicked, cb',
                [NetEvent.postMessage url, NetEvent.getMessage url])

/-- `Initialize` (lines 127-141): GET the init endpoint (its transport and
body-read failures are the `Except.error` case), then store the body with all
surrounding double-quotes trimmed as the conversation token.  No JSON
decoding is performed and no decode failure is possible. -/
def Initialize (cb : CaptionBotClientState) (netGet : Except String String) :
    GoOutcome Unit × CaptionBotClientState × List NetEvent :=
match netGet with
| Except.error msg => (GoOutcome.err (GoError.transport msg), cb, [NetEvent.getInit])
| Except.ok body =>
  (GoOutcome.ok (), { cb with conversationId := goTrimQuotes body }, [NetEvent.getInit])

/-- Environment for one `UploadCaption` call, one field per fallible call
site in lines 211-277: `os.Stat`/`os.IsNotExist` (213), `os.Open` (217),
`ioutil.ReadAll(file)` (222), `writer.CreatePart` (238), `writer.Close`
(246), `http.NewRequest` (251), `http.DefaultClient.Do` (259),
`ioutil.ReadAll(resp.Body)` (265), and the environment of the nested
`URLCaption` call (271). -/
structure UploadEnv where
statNotExist : Bool
openResult : Except String Unit
readFileResult : Except String String
createPartErr : Option String
writerCloseErr : Option String
newRequestErr : Option String
doResult : Except String Unit
readBodyResult : Except String String
urlEnv : UrlCaptionEnv

/-- `UploadCaption` (lines 211-277): check the file, read it, build the
multipart body, POST it, read the response body, sanitize it with
`SanitizeCaptionByteArray` (not a JSON decode), and pass the sanitized
reference to `URLCaption`, forwarding its outcome and state change. -/
def UploadCaption (cb : CaptionBotClientState) (env : UploadEnv) (_fileName : String) :
    GoOutcome String × CaptionBotClientState × List NetEvent :=
if env.statNotExist then (GoOutcome.err (GoError.ioErr "file does not exist"), cb, [])
else
  match env.openResult with
  | Except.error msg => (GoOutcome.err (GoError.ioErr msg), cb, [])
  | Except.ok _ =>
    match env.readFileResult with
    | Except.error msg => (GoOutcome.err (GoError.ioErr msg), cb, [])
    | Except.ok _fileContents =>
      match env.createPartErr with
      | some msg => (GoOutcome.err (GoError.ioErr msg), cb, [])
      | none =>
        match env.writerCloseErr with
        | some msg => (GoOutcome.err (GoError.ioErr msg), cb, [])
        | none =>
          match env.newRequestErr with
          | some msg => (GoOutcome.err (GoError.transport msg), cb, [])
          | none =>
            match env.doResult with
            | Except.error msg =>
              (GoOutcome.err (GoError.transport msg), cb, [NetEvent.postUpload])
            | Except.ok _ =>
              match env.readBodyResult with
              | Except.error msg =>
                (GoOutcome.err (GoError.ioErr msg), cb, [NetEvent.postUpload])
              | Except.ok body =>
                match SanitizeCaptionByteArray body with
                | GoOutcome.panicked => (GoOutcome.panicked, cb, [NetEvent.postUpload])
                | GoOutcome.err e => (GoOutcome.err e, cb, [NetEvent.postUpload])
                | GoOutcome.ok uploadRef =>
                  match URLCaption cb env.urlEnv uploadRef with
                  | (GoOutcome.ok caption, cb', evs) =>
                    (GoOutcome.ok caption, cb', NetEvent.postUpload :: evs)
                  | (GoOutcome.err e, cb', evs) =>
                    (GoOutcome.err e, cb', NetEvent.postUpload :: evs)
                  | (GoOutcome.panicked, cb', evs) =>
                    (GoOutcome.panicked, cb', NetEvent.postUpload :: evs)

/-- The JSON escape table: each pair maps the character after a backslash to
the character it denotes.  Escapes the captionbot service never produces
(`\b`, `\f`, `\uXXXX`) are left out and hence conservatively rejected. -/
def jsonEscapeTable : List (Char × Char) :=
[('"', '"'), ('\\', '\\'), ('/', '/'), ('n', Char.ofNat 10), ('t', Char.ofNat 9),
 ('r', Char.ofNat 13)]

/-- Decoding of one JSON escape character via the escape table. -/
def jsonEscChar (e : Char) : Option Char :=
(jsonEscapeTable.find? (fun p => p.1 = e)).map Prod.snd

/-- Unescaping of the interior of a JSON string literal: a raw double-quote
would have terminated the literal early, a lone trailing backslash is
invalid, a backslash escape is decoded by `jsonEscChar`, and every other
character stands for itself. -/
def jsonUnescapeChars : List Char → Option (List Char)
| [] => some []
| '"' :: _ => none
| '\\' :: [] => none
| '\\' :: e :: rest =>
  match jsonEscChar e with
  | none => none
  | some c => (jsonUnescapeChars rest).map (fun l => c :: l)
| c :: rest => (jsonUnescapeChars rest).map (fun l => c :: l)

/-- Modelled from the spec: a standards-compliant decoder of a body that is
"a JSON-encoded string" — the whole body must be one double-quoted JSON
string literal, whose interior is unescaped; anything else is not a valid
JSON string and fails to decode.  This is the behavior the spec attributes
to `Initialize` and to `UploadCaption`'s handling of the upload response;
it is compared against what the source actually does (`goTrimQuotes`,
`SanitizeCaptionByteArray`). -/
def jsonDecodeStringSpec (s : String) : Option String :=
match s.data with
| '"' :: rest =>
  match rest.reverse with
  | '"' :: midRev => (jsonUnescapeChars midRev.reverse).map List.asString
  | _ => none
| _ => none

/-! Concrete environments used to evaluate the code on the inputs that
decide the claims. -/

/-- A fully successful `URLCaption` environment realizing the spec's
round-trip scenario: submission accepted with HTTP 200, inner response with
waterMark `"wm-1"` and two bot messages, the second being the caption. -/
def envSuccess : UrlCaptionEnv where
jsonEncode := fun _ => Except.ok "encoded-request"
postDo := Except.ok 200
httpGet := Except.ok "outer-body"
decodeOuter := fun _ => Except.ok "inner-object"
decodeInner := fun _ =>
  Except.ok ⟨"conv-123", "http://x/img.jpg", "wm-1", "completed",
             ["http://x/img.jpg", "a cat on a chair"]⟩

/-- An environment whose task-submission POST is answered with HTTP 404. -/
def envBadStatus : UrlCaptionEnv where
jsonEncode := fun _ => Except.ok "encoded-request"
postDo := Except.ok 404
httpGet := Except.ok "never-fetched"
decodeOuter := fun _ => Except.ok "never-decoded"
decodeInner := fun _ => Except.error "never-decoded"

/-- A fully successful `URLCaption` environment whose decoded inner response
carries only ONE bot message (the echoed request URL) and a fresh
waterMark. -/
def envShortMessages : UrlCaptionEnv where
jsonEncode := fun _ => Except.ok "encoded-request"
postDo := Except.ok 200
httpGet := Except.ok "raw-body"
decodeOuter := fun _ => Except.ok "inner-json"
decodeInner := fun _ => Except.ok ⟨"conv-1", "http://x/img.jpg", "wm-new", "completed", ["http://x/img.jpg"]⟩

/-- Same shape as `envShortMessages`, used for the state-mutation claim:
one bot message, waterMark `"wm-2"` replacing `"wm-1"`. -/
def envMutates : UrlCaptionEnv where
jsonEncode := fun _ => Except.ok "encoded-request"
postDo := Except.ok 204
httpGet := Except.ok "raw"
decodeOuter := fun _ => Except.ok "inner"
decodeInner := fun _ => Except.ok ⟨"conv-9", "http://y/pic.png", "wm-2", "completed", ["echo-only"]⟩

/-- An upload environment in which every step up to reading the upload
response body succeeds and the body read is the EMPTY string; the nested
`URLCaption` environment is arbitrary but fixed. -/
def envEmptyUploadBody : UploadEnv where
statNotExist := false
openResult := Except.ok ()
readFileResult := Except.ok "jpeg-bytes"
createPartErr := none
writerCloseErr := none
newRequestErr := none
doResult := Except.ok ()
readBodyResult := Except.ok ""
urlEnv := envShortMessages

/-- An upload environment whose upload response body is the six bytes
`"a\\b"` (quote, a, backslash, backslash, b, quote): a valid JSON string
literal denoting `a\b`, on which `SanitizeCaptionByteArray` and a JSON
string decoder disagree.  The nested environment succeeds through the POST
so the trace records which reference was transmitted. -/
def envUploadBackslash : UploadEnv where
statNotExist := false
openResult := Except.ok ()
readFileResult := Except.ok "png-bytes"
createPartErr := none
writerCloseErr := none
newRequestErr := none
doResult := Except.ok ()
readBodyResult := Except.ok "\"a\\\\b\""
urlEnv :=
  { jsonEncode := fun _ => Except.ok "encoded-request"
    postDo := Except.ok 200
    httpGet := Except.ok "raw"
    decodeOuter := fun _ => Except.ok "inner"
    decodeInner := fun _ => Except.ok ⟨"conv-2", "a\\b", "wm-3", "completed", ["a\\b", "a white bird"]⟩ }

/-! Theorems. -/

/-- Helper: the complete value of `URLCaption` on a fully successful run
whose decoded response has at least two bot messages. -/
theorem urlCaption_success_eq (cb : CaptionBotClientState) (env : UrlCaptionEnv)
    (url data body inner : String) (resp : CaptionBotResponse) (status : ℕ)
    (hcid : ¬ cb.conversationId = "")
    (hEnc : env.jsonEncode ⟨cb.conversationId, url, cb.waterMark⟩ = Except.ok data)
    (hPost : env.postDo = Except.ok status)
    (hLo : 200 ≤ status) (hHi : status ≤ 299)
    (hGet : env.httpGet = Except.ok body)
    (hOuter : env.decodeOuter body = Except.ok inner)
    (hInner : env.decodeInner inner = Except.ok resp)
    (m0 m1 : String) (rest : List String)
    (hBM : resp.botMessages = m0 :: m1 :: rest) :
    URLCaption cb env url =
      (GoOutcome.ok m1, { cb with waterMark := resp.waterMark },
       [NetEvent.postMessage url, NetEvent.getMessage url]) := by
  have hok : ¬ (status < 200 ∨ status > 299) := by omega
  simp [URLCaption, hcid, hEnc, CreateCaptionTask, hPost, hok, hGet, hOuter, hInner, hBM]

/-- C5: on a run where the task submission succeeds (2xx) and the follow-up
GET body decodes through both JSON layers into a response whose
`botMessages` has at least two entries (`m0 :: m1 :: rest`, so `m1` is
`botMessages[1]`), `URLCaption` returns `m1` as the caption and the
session's `waterMark` afterwards equals the response's `waterMark` — the
whole state is the old one with `waterMark` unconditionally replaced. -/
theorem urlCaption_success_caption_and_watermark (cb : CaptionBotClientState)
    (env : UrlCaptionEnv) (url data body inner : String) (resp : CaptionBotResponse)
    (status : ℕ)
    (hcid : ¬ cb.conversationId = "")
    (hEnc : env.jsonEncode ⟨cb.conversationId, url, cb.waterMark⟩ = Except.ok data)
    (hPost : env.postDo = Except.ok status)
    (hLo : 200 ≤ status) (hHi : status ≤ 299)
    (hGet : env.httpGet = Except.ok body)
    (hOuter : env.decodeOuter body = Except.ok inner)
    (hInner : env.decodeInner inner = Except.ok resp)
    (m0 m1 : String) (rest : List String)
    (hBM : resp.botMessages = m0 :: m1 :: rest) :
    (URLCaption cb env url).1 = GoOutcome.ok m1 ∧
    (URLCaption cb env url).2.1.waterMark = resp.waterMark ∧
    (URLCaption cb env url).2.1 = { cb with waterMark := resp.waterMark } := by
  rw [urlCaption_success_eq cb env url data body inner resp status hcid hEnc hPost hLo hHi
        hGet hOuter hInner m0 m1 rest hBM]
  exact ⟨rfl, rfl, rfl⟩

/-- C5 witness: the spec's round-trip scenario on `envSuccess`: the caption
is the second bot message and the waterMark becomes `"wm-1"`. -/
theorem urlCaption_success_caption_and_watermark_witness :
    (URLCaption ⟨"", "conv-123"⟩ envSuccess "http://x/img.jpg").1 =
        GoOutcome.ok "a cat on a chair" ∧
    (URLCaption ⟨"", "conv-123"⟩ envSuccess "http://x/img.jpg").2.1.waterMark = "wm-1" ∧
    (URLCaption ⟨"", "conv-123"⟩ envSuccess "http://x/img.jpg").2.1 =
        { waterMark := "wm-1", conversationId := "conv-123" } :=
  urlCaption_success_caption_and_watermark ⟨"", "conv-123"⟩ envSuccess "http://x/img.jpg"
    "encoded-request" "outer-body" "inner-object"
    ⟨"conv-123", "http://x/img.jpg", "wm-1", "completed",
     ["http://x/img.jpg", "a cat on a chair"]⟩ 200
    (by decide) rfl rfl (by decide) (by decide) rfl rfl rfl
    "http://x/img.jpg" "a cat on a chair" [] rfl

/-- C6: when the session is initialized and the task-submission POST is
answered with any HTTP status outside 200-299, `URLCaption` fails with the
task-submission error, leaves the state unchanged, and its event trace is
exactly the POST — no follow-up GET request is ever issued. -/
theorem urlCaption_bad_status_no_get (cb : CaptionBotClientState) (env : UrlCaptionEnv)
    (url data : String) (status : ℕ)
    (hcid : ¬ cb.conversationId = "")
    (hEnc : env.jsonEncode ⟨cb.conversationId, url, cb.waterMark⟩ = Except.ok data)
    (hPost : env.postDo = Except.ok status)
    (hBad : status < 200 ∨ status > 299) :
    URLCaption cb env url =
      (GoOutcome.err GoError.taskSubmission, cb, [NetEvent.postMessage url]) ∧
    ∀ m, NetEvent.getMessage m ∉ (URLCaption cb env url).2.2 := by
  have h : URLCaption cb env url =
      (GoOutcome.err GoError.taskSubmission, cb, [NetEvent.postMessage url]) := by
    simp [URLCaption, hcid, hEnc, CreateCaptionTask, hPost, hBad]
  refine ⟨h, ?_⟩
  rw [h]
  intro m hm
  simp at hm

/-- C6 witness: with an initialized session and a 404 on the POST, the call
fails with the task-submission error and the trace holds no GET. -/
theorem urlCaption_bad_status_no_get_witness :
    URLCaption ⟨"", "conv-123"⟩ envBadStatus "http://x/img.jpg" =
      (GoOutcome.err GoError.taskSubmission, ⟨"", "conv-123"⟩,
       [NetEvent.postMessage "http://x/img.jpg"]) ∧
    ∀ m, NetEvent.getMessage m ∉
        (URLCaption ⟨"", "conv-123"⟩ envBadStatus "http://x/img.jpg").2.2 :=
  urlCaption_bad_status_no_get ⟨"", "conv-123"⟩ envBadStatus "http://x/img.jpg"
    "encoded-request" 404 (by decide) rfl rfl (by omega)

/-- C7: whenever the conversation token is empty, `URLCaption` fails with
the not-initialized error, leaves the state unchanged, and its event trace
is empty — no network call is performed. -/
theorem urlCaption_uninitialized (cb : CaptionBotClientState) (env : UrlCaptionEnv)
    (url : String) (h : cb.conversationId = "") :
    URLCaption cb env url = (GoOutcome.err GoError.notInitialized, cb, []) := by
  simp [URLCaption, h]

/-- C7 witness: a fresh (empty) session fails with the not-initialized error
and issues no request, even against a fully working service. -/
theorem urlCaption_uninitialized_witness :
    URLCaption ⟨"", ""⟩ envSuccess "http://x/img.jpg" =
      (GoOutcome.err GoError.notInitialized, ⟨"", ""⟩, []) :=
  urlCaption_uninitialized ⟨"", ""⟩ envSuccess "http://x/img.jpg" rfl

/-- C9: calling `URLCaption` twice with the same URL against a service that
returns the same successful response both times yields the same caption both
times, and after each call the session's `waterMark` equals exactly the
response's `waterMark` — replaced each time, never accumulated. -/
theorem urlCaption_idempotent (cb : CaptionBotClientState) (env : UrlCaptionEnv)
    (url data1 data2 body inner : String) (resp : CaptionBotResponse) (status : ℕ)
    (hcid : ¬ cb.conversationId = "")
    (hEnc1 : env.jsonEncode ⟨cb.conversationId, url, cb.waterMark⟩ = Except.ok data1)
    (hEnc2 : env.jsonEncode ⟨cb.conversationId, url, resp.waterMark⟩ = Except.ok data2)
    (hPost : env.postDo = Except.ok status)
    (hLo : 200 ≤ status) (hHi : status ≤ 299)
    (hGet : env.httpGet = Except.ok body)
    (hOuter : env.decodeOuter body = Except.ok inner)
    (hInner : env.decodeInner inner = Except.ok resp)
    (m0 m1 : String) (rest : List String)
    (hBM : resp.botMessages = m0 :: m1 :: rest) :
    (URLCaption cb env url).1 = GoOutcome.ok m1 ∧
    (URLCaption (URLCaption cb env url).2.1 env url).1 = GoOutcome.ok m1 ∧
    (URLCaption cb env url).2.1.waterMark = resp.waterMark ∧
    (URLCaption (URLCaption cb env url).2.1 env url).2.1.waterMark = resp.waterMark := by
  have h1 := urlCaption_success_eq cb env url data1 body inner resp status hcid hEnc1
    hPost hLo hHi hGet hOuter hInner m0 m1 rest hBM
  have h2 := urlCaption_success_eq { cb with waterMark := resp.waterMark } env url data2
    body inner resp status hcid hEnc2 hPost hLo hHi hGet hOuter hInner m0 m1 rest hBM
  simp [h1, h2]

/-- C9 witness: two successive calls on `envSuccess` both return the caption
`"a cat on a chair"` and both leave the waterMark at exactly `"wm-1"`. -/
theorem urlCaption_idempotent_witness :
    (URLCaption ⟨"", "conv-123"⟩ envSuccess "http://x/img.jpg").1 =
      GoOutcome.ok "a cat on a chair" ∧
    (URLCaption (URLCaption ⟨"", "conv-123"⟩ envSuccess "http://x/img.jpg").2.1
        envSuccess "http://x/img.jpg").1 = GoOutcome.ok "a cat on a chair" ∧
    (URLCaption ⟨"", "conv-123"⟩ envSuccess "http://x/img.jpg").2.1.waterMark = "wm-1" ∧
    (URLCaption (URLCaption ⟨"", "conv-123"⟩ envSuccess "http://x/img.jpg").2.1
        envSuccess "http://x/img.jpg").2.1.waterMark = "wm-1" :=
  urlCaption_idempotent ⟨"", "conv-123"⟩ envSuccess "http://x/img.jpg"
    "encoded-request" "encoded-request" "outer-body" "inner-object"
    ⟨"conv-123", "http://x/img.jpg", "wm-1", "completed",
     ["http://x/img.jpg", "a cat on a chair"]⟩ 200
    (by decide) rfl rfl rfl (by decide) (by decide) rfl rfl rfl
    "http://x/img.jpg" "a cat on a chair" [] rfl

/-- C1 (code bug): on a fully successful run whose decoded inner response
carries only ONE bot message, `URLCaption` evaluates `BotMessages[1]`
without a bounds check and panics (index out of range).  It returns no
`MalformedResponseError` — the code constructs no such error value anywhere
(see `GoError`) — and no caption. -/
theorem urlCaption_short_botMessages_panics :
    URLCaption ⟨"wm-1", "conv-1"⟩ envShortMessages "http://x/img.jpg" =
      (GoOutcome.panicked, ⟨"wm-new", "conv-1"⟩,
       [NetEvent.postMessage "http://x/img.jpg", NetEvent.getMessage "http://x/img.jpg"]) := by
  decide

/-- C2 (code bug): with an empty upload-response body, `UploadCaption`
reaches `SanitizeCaptionByteArray`, whose slice `data[1:len(data)-1]` is out
of bounds, so the call panics instead of returning an error value. -/
theorem uploadCaption_empty_body_panics :
    UploadCaption ⟨"", "conv-1"⟩ envEmptyUploadBody "img.jpg" =
      (GoOutcome.panicked, ⟨"", "conv-1"⟩, [NetEvent.postUpload]) ∧
    SanitizeCaptionByteArray "" = GoOutcome.panicked := by
  decide

/-- C8 (code bug): a failing `URLCaption` call that leaves the state
CHANGED: the inner response parses with waterMark `"wm-2"` but only one bot
message, so the call panics — yet the session's waterMark has already been
overwritten from `"wm-1"` to `"wm-2"` before the panic. -/
theorem urlCaption_failed_call_mutates_state :
    URLCaption ⟨"wm-1", "conv-9"⟩ envMutates "http://y/pic.png" =
      (GoOutcome.panicked, ⟨"wm-2", "conv-9"⟩,
       [NetEvent.postMessage "http://y/pic.png", NetEvent.getMessage "http://y/pic.png"]) ∧
    ("wm-2" : String) ≠ "wm-1" := by
  decide

/-- C3 counterexample: the body `"x"` is not a valid JSON string, yet
`Initialize` succeeds and stores `"x"` as the conversation token — it never
fails with a decode error, because it only trims surrounding double-quotes
instead of JSON-decoding the body. -/
theorem initialize_invalid_json_counterexample :
    jsonDecodeStringSpec "x" = none ∧
    Initialize ⟨"", ""⟩ (Except.ok "x") =
      (GoOutcome.ok (), ⟨"", "x"⟩, [NetEvent.getInit]) := by
  decide

/-- C3 amended: `Initialize` stores the body with all leading and trailing
double-quote characters trimmed (`strings.Trim`) as the conversation token;
it succeeds on EVERY body, and its only failure mode is a transport error —
never a decode error. -/
theorem initialize_trims_quotes (cb : CaptionBotClientState) (net : Except String String) :
    (∀ body, net = Except.ok body →
      Initialize cb net =
        (GoOutcome.ok (), { cb with conversationId := goTrimQuotes body },
         [NetEvent.getInit])) ∧
    (∀ e, (Initialize cb net).1 = GoOutcome.err e → ∃ msg, e = GoError.transport msg) := by
  constructor
  · rintro body rfl
    simp [Initialize]
  · intro e he
    cases net with
    | error msg =>
      simp [Initialize] at he
      exact ⟨msg, he.symm⟩
    | ok body =>
      simp [Initialize] at he

/-- C3 amended witness: the spec's scenario body `"\"conv-123\""` is trimmed
to the token `conv-123` and the call succeeds. -/
theorem initialize_trims_quotes_witness :
    Initialize ⟨"", ""⟩ (Except.ok "\"conv-123\"") =
      (GoOutcome.ok (), ⟨"", goTrimQuotes "\"conv-123\""⟩, [NetEvent.getInit]) ∧
    goTrimQuotes "\"conv-123\"" = "conv-123" :=
  ⟨(initialize_trims_quotes ⟨"", ""⟩ (Except.ok "\"conv-123\"")).1 "\"conv-123\"" rfl,
   by decide⟩

/-- C4 counterexample: on the upload-response body `"a\\b"` (a valid JSON
string literal denoting `a\b`), `UploadCaption` does NOT invoke `URLCaption`
with the JSON-decoded reference `a\b`: the trace shows it transmits the
`SanitizeCaptionByteArray` output `a\\b` (first/last byte stripped, no
backslash unescaping), which differs from the JSON decode. -/
theorem uploadCaption_not_json_decode_counterexample :
    jsonDecodeStringSpec "\"a\\\\b\"" = some "a\\b" ∧
    SanitizeCaptionByteArray "\"a\\\\b\"" = GoOutcome.ok "a\\\\b" ∧
    UploadCaption ⟨"", "conv-2"⟩ envUploadBackslash "pic.png" =
      (GoOutcome.ok "a white bird", ⟨"wm-3", "conv-2"⟩,
       [NetEvent.postUpload, NetEvent.postMessage "a\\\\b",
        NetEvent.getMessage "a\\\\b"]) ∧
    ("a\\\\b" : String) ≠ "a\\b" := by
  decide

/-- C4 amended: when every step through reading the upload-response body
succeeds, `UploadCaption` obtains the upload reference by applying
`SanitizeCaptionByteArray` to the body (NOT a JSON string decode), invokes
`URLCaption` with that reference, and returns its outcome, state change and
requests directly, prefixed by the upload POST event. -/
theorem uploadCaption_sanitizes_then_captions (cb : CaptionBotClientState)
    (env : UploadEnv) (fileName contents body ref : String)
    (hStat : env.statNotExist = false)
    (hOpen : env.openResult = Except.ok ())
    (hReadF : env.readFileResult = Except.ok contents)
    (hPart : env.createPartErr = none)
    (hClose : env.writerCloseErr = none)
    (hReq : env.newRequestErr = none)
    (hDo : env.doResult = Except.ok ())
    (hBody : env.readBodyResult = Except.ok body)
    (hSan : SanitizeCaptionByteArray body = GoOutcome.ok ref) :
    UploadCaption cb env fileName =
      ((URLCaption cb env.urlEnv ref).1, (URLCaption cb env.urlEnv ref).2.1,
       NetEvent.postUpload :: (URLCaption cb env.urlEnv ref).2.2) := by
  simp only [UploadCaption, hStat, hOpen, hReadF, hPart, hClose, hReq, hDo, hBody, hSan,
    Bool.false_eq_true, if_false]
  rcases hU : URLCaption cb env.urlEnv ref with ⟨out, cb', evs⟩
  cases out <;> simp

/-- C4 amended witness: on `envUploadBackslash`, `UploadCaption` equals the
`URLCaption` run on the sanitized reference `a\\b`, with the upload POST
prefixed to its trace. -/
theorem uploadCaption_sanitizes_then_captions_witness :
    UploadCaption ⟨"", "conv-2"⟩ envUploadBackslash "pic.png" =
      ((URLCaption ⟨"", "conv-2"⟩ envUploadBackslash.urlEnv "a\\\\b").1,
       (URLCaption ⟨"", "conv-2"⟩ envUploadBackslash.urlEnv "a\\\\b").2.1,
       NetEvent.postUpload ::
         (URLCaption ⟨"", "conv-2"⟩ envUploadBackslash.urlEnv "a\\\\b").2.2) :=
  uploadCaption_sanitizes_then_captions ⟨"", "conv-2"⟩ envUploadBackslash "pic.png"
    "png-bytes" "\"a\\\\b\"" "a\\\\b" rfl rfl rfl rfl rfl rfl rfl rfl (by decide)

/-- C10: `SanitizeCaptionByteArray` panics exactly on inputs of length 0 or
1 (the Go slice `data[1:len(data)-1]` is out of bounds there), and on every
input of length at least 2 it returns the input with its first and last byte
removed and every backslash-quote pair replaced by a double-quote. -/
theorem sanitizeCaptionByteArray_domain (data : String) :
    (SanitizeCaptionByteArray data = GoOutcome.panicked ↔ data.length < 2) ∧
    (2 ≤ data.length →
      SanitizeCaptionByteArray data =
        GoOutcome.ok (goReplaceEscQuote ((data.data.drop 1).dropLast).asString)) := by
  by_cases h : data.length < 2
  · constructor
    · simp [SanitizeCaptionByteArray, h]
    · intro h2
      omega
  · constructor
    · simp [SanitizeCaptionByteArray, h]
    · intro _
      simp [SanitizeCaptionByteArray, h]

/-- C10 witness: on the six-byte body `"a\"b"` the sanitizer succeeds, and
on the concrete input the claimed value is `a"b`. -/
theorem sanitizeCaptionByteArray_domain_witness :
    (2 ≤ ("\"a\\\"b\"" : String).length ∧
      SanitizeCaptionByteArray "\"a\\\"b\"" =
        GoOutcome.ok
          (goReplaceEscQuote ((("\"a\\\"b\"" : String).data.drop 1).dropLast).asString)) ∧
    SanitizeCaptionByteArray "\"a\\\"b\"" = GoOutcome.ok "a\"b" :=
  ⟨⟨by decide, (sanitizeCaptionByteArray_domain "\"a\\\"b\"").2 (by decide)⟩, by decide⟩

end Captionbot
